import Mathlib

/-!
Verification development for the pyweather client library.

The definitions below are a shallow embedding of the library's core:

* `src/objects.py` — `BaseWeather` (coordinate validation, request template)
  and `BaseForecast` (forecast-day window);
* `src/forecast/weather.py` — `Weather.__init__` coordinate validation;
* `src/forecast/weather_archive.py` — `Archive` date-range handling;
* `src/meteorology/marine.py` — `MarineWeather` availability probe and the
  `__setattr__` hook;
* `src/meteorology/air.py` — `AirQuality.get_current_aqi`;
* `src/atmolib/errors.py` — `RequestError` message construction.

Machine conventions: coordinates are rationals (Python int/float inputs),
forecast-day counts and HTTP status codes are integers, calendar dates are
integers (day numbers) with "today" passed explicitly, and Python dicts of
request parameters are records of `Option` fields where `none` models a key
that is absent (or still holds the template's initial Python `None`).
Each mutating operation returns `Except (Err × State) State`: the error case
carries the state of the object at the moment the exception was raised, so
that atomicity ("no partial update") is an actual statement about the code.
-/

namespace PyWeather

deriving instance DecidableEq for Except

/-- Error values raised by the embedded code. Python `assert cond, ValueError(...)`
statements raise an `AssertionError` (the `ValueError` object is merely the assert
message); explicit `raise ValueError` raises a `ValueError`; `RequestError`
(src/atmolib/errors.py, lines 9-20) is constructed from the HTTP status code and
the server-provided reason text. `attributeError` models reading a slot that was
never assigned, and `keyError` a missing key in a JSON body. -/
inductive Err where
  | assertionError (msg : String) : Err
  | valueError (msg : String) : Err
  | attributeError (msg : String) : Err
  | keyError (key : String) : Err
  | requestError (statusCode : ℤ) (reason : String) : Err
  deriving DecidableEq

/-- Message built by `RequestError.__init__` (src/atmolib/errors.py, lines 18-20):
`f"Server responded with status code {status_code}. {message}"`. -/
def requestErrorMessage (statusCode : ℤ) (reason : String) : String :=
  "Server responded with status code " ++ toString statusCode ++ ". " ++ reason

/-- Request-parameter dictionary (`self._params` and the per-call dicts).
A `none` field models a key that is absent from the dict, or one that still
holds the template's initial Python `None` (the two are indistinguishable to
the `.get(...) is not None` checks the code performs, and a `None`-valued key
never takes part in a merge in any code path modelled here). -/
structure Params where
  latitude : Option ℚ
  longitude : Option ℚ
  forecast_days : Option ℤ
  current : Option String
  start_date : Option ℤ
  end_date : Option ℤ
  deriving DecidableEq

/-- Dict-merge on one key: the right operand wins when it carries the key. -/
def keyMerge {α : Type} (a b : Option α) : Option α :=
  match b with
  | some v => some v
  | none => a

/-- Python `a | b` / `a |= b` on parameter dicts: keys of `b` override `a`. -/
def Params.merge (a b : Params) : Params :=
  ⟨keyMerge a.latitude b.latitude, keyMerge a.longitude b.longitude,
   keyMerge a.forecast_days b.forecast_days, keyMerge a.current b.current,
   keyMerge a.start_date b.start_date, keyMerge a.end_date b.end_date⟩

/-- Empty parameter dict. -/
def emptyParams : Params := ⟨none, none, none, none, none, none⟩

/-- True when the operation completed without raising. -/
def excOk {ε α : Type} : Except ε α → Bool
  | .ok _ => true
  | .error _ => false

/-- True for the errors the spec calls validation errors: `assert` failures and
`ValueError`s, both raised synchronously before any network call. -/
def isValidationError : Err → Bool
  | .assertionError _ => true
  | .valueError _ => true
  | _ => false

/-- True when the operation raised a validation error (first component of the
carried error pair). -/
def failsValidation {σ α : Type} : Except (Err × σ) α → Bool
  | .error (e, _) => isValidationError e
  | .ok _ => false

/-- Assert message of the `lat` setter (src/objects.py, lines 38-40). The `long`
setter (lines 48-51) uses the same text — its message also says `lat`, a verbatim
copy of the latitude check. -/
def latRangeMsg : String := "lat must be in the range of -90 and 90"

/-- Assert message of the `forecast_days` setter (src/objects.py, lines 115-117). -/
def forecastRangeMsg : String := "forecast_days must be in the range of 1 and 16"

/-! ### BaseWeather / BaseForecast (src/objects.py)

One state type serves both classes: `BaseWeather` simply never assigns
`_forecast_days`. Slots start out unassigned (`none`); `__init__` first builds
the params template and then runs the property setters. -/

/-- Object state of `BaseWeather` / `BaseForecast`. -/
structure FState where
  lat : Option ℚ
  long : Option ℚ
  forecast_days : Option ℤ
  params : Params
  deriving DecidableEq

/-- State at the top of `BaseWeather.__init__` (src/objects.py, lines 24-27):
slots unassigned, params template `latitude: None, longitude: None`. -/
def initFState : FState := ⟨none, none, none, emptyParams⟩

/-- `BaseWeather.lat` setter (src/objects.py, lines 36-41): assert the range,
then `self._lat = self._params["latitude"] = value` (no failing step between
the two writes, so the update is a single atomic step). -/
def fSetLat (s : FState) (v : ℚ) : Except (Err × FState) FState :=
  if -90 ≤ v ∧ v ≤ 90 then
    .ok { s with lat := some v, params := { s.params with latitude := some v } }
  else
    .error (.assertionError latRangeMsg, s)

/-- `BaseWeather.long` setter (src/objects.py, lines 47-52). The source asserts
`-90 <= value <= 90` — the bound (and the message) are a verbatim copy of the
latitude check, not the documented longitude range [-180, 180]. -/
def fSetLong (s : FState) (v : ℚ) : Except (Err × FState) FState :=
  if -90 ≤ v ∧ v ≤ 90 then
    .ok { s with long := some v, params := { s.params with longitude := some v } }
  else
    .error (.assertionError latRangeMsg, s)

/-- `BaseForecast.forecast_days` setter (src/objects.py, lines 113-122):
assert `value in range(1, 17)` — the bound is 1..16 for every domain; the
per-domain `_max_forecast_days` class attributes are not consulted —
then assign the slot and the template entry. -/
def fSetForecastDays (s : FState) (v : ℤ) : Except (Err × FState) FState :=
  if 1 ≤ v ∧ v ≤ 16 then
    .ok { s with forecast_days := some v,
                 params := { s.params with forecast_days := some v } }
  else
    .error (.assertionError forecastRangeMsg, s)

/-- `BaseWeather.__init__` (src/objects.py, lines 24-30): build the template,
then run the `lat` and `long` setters in order. -/
def baseWeatherInit (lat long : ℚ) : Except (Err × FState) FState :=
  match fSetLat initFState lat with
  | .error e => .error e
  | .ok s1 =>
    fSetLong s1 long

/-- `BaseForecast.__init__` (src/objects.py, lines 102-107): `BaseWeather.__init__`
followed by the `forecast_days` setter. -/
def baseForecastInit (lat long : ℚ) (fd : ℤ) : Except (Err × FState) FState :=
  match baseWeatherInit lat long with
  | .error e => .error e
  | .ok s =>
    fSetForecastDays s fd

/-- `BaseForecast.__init__` with its default argument `forecast_days = 7`. -/
def baseForecastInitDefault (lat long : ℚ) : Except (Err × FState) FState :=
  baseForecastInit lat long 7

/-- Request construction shared by `get_current_weather_data` and
`get_periodical_data` (src/objects.py, lines 67 and 87): `params |= self._params`
— the object's template overrides the call-specific dict. -/
def mergedRequest (s : FState) (call : Params) : Params :=
  Params.merge call s.params

/-- Request built for a current-data call selecting `field`
(call dict `current: field`, merged with the template). -/
def buildCurrentRequest (s : FState) (field : String) : Params :=
  mergedRequest s ⟨none, none, none, some field, none, none⟩

/-! ### Weather (src/forecast/weather.py) -/

/-- `Weather.__init__` (src/forecast/weather.py, lines 38-49): validates
`-90 <= lat <= 90` and `-180 <= long <= 180`, then builds the params template
directly. This class, unlike `BaseWeather`, checks the documented longitude
range. -/
def weatherInit (lat long : ℚ) : Except Err Params :=
  if -90 ≤ lat ∧ lat ≤ 90 then
    if -180 ≤ long ∧ long ≤ 180 then
      .ok ⟨some lat, some long, none, none, none, none⟩
    else
      .error (.assertionError "long must be in the range of -180 and 180")
  else
    .error (.assertionError "lat must be in the range of -90 and 90")

/-! ### Fetch primitives

The shared fetch helpers live in `common/tools.py`, which is not among the
sources; they are modelled from the spec (section 4.3). The HTTP response
they inspect is modelled as a record of the JSON fields the code reads. -/

/-- HTTP response as seen by the fetch primitives and the availability probe:
status code, the `reason` string of an error body, and the parsed `current` /
`hourly` / `daily` objects (field name to value(s)) with the `time` array. -/
structure HttpResponse where
  status : ℤ
  reason : String
  current : List (String × ℚ)
  hourly : List (String × List ℚ)
  daily : List (String × List ℚ)
  time : List String
  deriving DecidableEq

/-- Modelled from the spec: `common/tools.py` `get_current_data` (fetch-scalar)
is not among the sources. Spec section 4.3: expect HTTP 200; on any other
status fail with a request error carrying the status code and server-provided
reason text; otherwise extract the single requested field from the body's
`current` object. -/
def getCurrentData (resp : HttpResponse) (field : String) : Except Err ℚ :=
  if resp.status ≠ 200 then
    .error (.requestError resp.status resp.reason)
  else
    match resp.current.lookup field with
    | some v => .ok v
    | none => .error (.keyError field)

/-- Modelled from the spec: `common/tools.py` `get_periodical_data`
(fetch-series) is not among the sources. Spec section 4.3: same transport
contract as fetch-scalar; on 200, pair the `time` array with the requested
field's array under the `hourly` or `daily` key, preserving API order. -/
def getPeriodicalData (resp : HttpResponse) (freq field : String) :
    Except Err (List (String × ℚ)) :=
  if resp.status ≠ 200 then
    .error (.requestError resp.status resp.reason)
  else
    match (if freq = "daily" then resp.daily else resp.hourly).lookup field with
    | some vs => .ok (resp.time.zip vs)
    | none => .error (.keyError field)

/-- Modelled from the spec: `common/tools.py` `get_current_summary`
(fetch-summary) is not among the sources. Spec section 4.3: same transport
contract; on 200, disaggregate the combined response pairing the supplied
field-name list positionally with the returned columns. -/
def getCurrentSummary (resp : HttpResponse) (fields : List String) :
    Except Err (List (String × ℚ)) :=
  if resp.status ≠ 200 then
    .error (.requestError resp.status resp.reason)
  else
    .ok (fields.zip (resp.current.map (fun p => p.2)))

/-! ### Archive (src/forecast/weather_archive.py)

Dates are modelled as integer day numbers with `today` an explicit argument;
`_resolve_date` is modelled on date-valued input (the string-parsing branch
raises on malformed input and is not involved in the claims below). -/

/-- Object state of `Archive`. -/
structure AState where
  lat : Option ℚ
  long : Option ℚ
  start_date : Option ℤ
  end_date : Option ℤ
  params : Params
  deriving DecidableEq

/-- `BaseWeather.lat` setter as inherited by `Archive` (src/objects.py,
lines 36-41). -/
def aSetLat (s : AState) (v : ℚ) : Except (Err × AState) AState :=
  if -90 ≤ v ∧ v ≤ 90 then
    .ok { s with lat := some v, params := { s.params with latitude := some v } }
  else
    .error (.assertionError latRangeMsg, s)

/-- `BaseWeather.long` setter as inherited by `Archive` (src/objects.py,
lines 47-52; bound is the copied -90..90 check). -/
def aSetLong (s : AState) (v : ℚ) : Except (Err × AState) AState :=
  if -90 ≤ v ∧ v ≤ 90 then
    .ok { s with long := some v, params := { s.params with longitude := some v } }
  else
    .error (.assertionError latRangeMsg, s)

/-- `Archive._resolve_date` (src/forecast/weather_archive.py, lines 51-75) on a
date-valued argument: assert `target <= date.today()` and return the date. -/
def resolveDate (today d : ℤ) : Except Err ℤ :=
  if d ≤ today then
    .ok d
  else
    .error (.assertionError "date must not be some date in the future")

/-- `Archive.start_date` setter (src/forecast/weather_archive.py, lines 81-83):
resolve the date and store it. No comparison against the current end date is
performed. -/
def archSetStartDate (today : ℤ) (s : AState) (v : ℤ) :
    Except (Err × AState) AState :=
  match resolveDate today v with
  | .error e => .error (e, s)
  | .ok d => .ok { s with start_date := some d }

/-- `Archive.end_date` setter (src/forecast/weather_archive.py, lines 89-97):
resolve the date, assert `end_date > self._start_date`, then store it. -/
def archSetEndDate (today : ℤ) (s : AState) (v : ℤ) :
    Except (Err × AState) AState :=
  match resolveDate today v with
  | .error e => .error (e, s)
  | .ok d =>
    match s.start_date with
    | none => .error (.attributeError "start date slot is not assigned", s)
    | some st =>
      if st < d then
        .ok { s with end_date := some d }
      else
        .error (.assertionError "end_date must be greater than start_date", s)

/-- `Archive.__init__` (src/forecast/weather_archive.py, lines 37-49):
`BaseWeather.__init__`, the `start_date` and `end_date` setters, then
`self._params |= start_date, end_date` with the original arguments. -/
def archiveInit (today : ℤ) (lat long : ℚ) (sd ed : ℤ) :
    Except (Err × AState) AState :=
  match aSetLat ⟨none, none, none, none, emptyParams⟩ lat with
  | .error e => .error e
  | .ok s1 =>
    match aSetLong s1 long with
    | .error e => .error e
    | .ok s2 =>
      match archSetStartDate today s2 sd with
      | .error e => .error e
      | .ok s3 =>
        match archSetEndDate today s3 ed with
        | .error e => .error e
        | .ok s4 =>
          .ok { s4 with params :=
                  { s4.params with start_date := some sd, end_date := some ed } }

/-- Date-range invariant of the spec: both bounds at most `today` and the end
strictly after the start. -/
def datesInv (today : ℤ) (s : AState) : Prop :=
  ∀ st ed, s.start_date = some st → s.end_date = some ed →
    st ≤ today ∧ ed ≤ today ∧ st < ed

/-! ### MarineWeather (src/meteorology/marine.py)

The class overrides `__setattr__`: after any assignment to `_lat` or `_long`,
if both template coordinate entries are non-`None`, it runs the availability
probe `_check_data_availability`. The probe issues one GET with the current
`_params` and raises `RequestError(status, body["reason"])` on a non-200
status. The external API is a function from the sent params to a response;
`probes` logs, in order, the params each probe request was sent with. -/

/-- Object state of `MarineWeather`. -/
structure MState where
  lat : Option ℚ
  long : Option ℚ
  wave_type : Option String
  typ : Option String
  forecast_days : Option ℤ
  params : Params
  probes : List Params
  deriving DecidableEq

/-- `MarineWeather._check_data_availability` (src/meteorology/marine.py,
lines 118-130): GET with `self._params`, then raise
`RequestError(status_code, body["reason"])` if the status is not 200. -/
def marineProbe (api : Params → HttpResponse) (s : MState) :
    Except (Err × MState) MState :=
  let s1 := { s with probes := s.probes ++ [s.params] }
  let r := api s.params
  if r.status = 200 then
    .ok s1
  else
    .error (.requestError r.status r.reason, s1)

/-- Assignment `self._lat = self._params["latitude"] = v` inside the inherited
`lat` setter, as executed on `MarineWeather`. Python evaluates the chained
assignment left to right: the slot `_lat` is written first, which fires
`__setattr__` (src/meteorology/marine.py, lines 104-116) — the probe, when both
template entries are non-`None`, still sees the previous template — and only
afterwards is the template entry `latitude` updated. -/
def marineAssignLat (api : Params → HttpResponse) (s : MState) (v : ℚ) :
    Except (Err × MState) MState :=
  let s1 := { s with lat := some v }
  match (if s1.params.latitude.isSome && s1.params.longitude.isSome then
           marineProbe api s1
         else
           .ok s1) with
  | .error e => .error e
  | .ok s2 => .ok { s2 with params := { s2.params with latitude := some v } }

/-- Assignment `self._long = self._params["longitude"] = v` inside the inherited
`long` setter on `MarineWeather`; same order as `marineAssignLat`. -/
def marineAssignLong (api : Params → HttpResponse) (s : MState) (v : ℚ) :
    Except (Err × MState) MState :=
  let s1 := { s with long := some v }
  match (if s1.params.latitude.isSome && s1.params.longitude.isSome then
           marineProbe api s1
         else
           .ok s1) with
  | .error e => .error e
  | .ok s2 => .ok { s2 with params := { s2.params with longitude := some v } }

/-- `lat` setter on a `MarineWeather` object: the inherited range assert, then
the chained assignment with the `__setattr__` hook. -/
def marineSetLat (api : Params → HttpResponse) (s : MState) (v : ℚ) :
    Except (Err × MState) MState :=
  if -90 ≤ v ∧ v ≤ 90 then
    marineAssignLat api s v
  else
    .error (.assertionError latRangeMsg, s)

/-- `long` setter on a `MarineWeather` object (inherited bound is the copied
-90..90 check). -/
def marineSetLong (api : Params → HttpResponse) (s : MState) (v : ℚ) :
    Except (Err × MState) MState :=
  if -90 ≤ v ∧ v ≤ 90 then
    marineAssignLong api s v
  else
    .error (.assertionError latRangeMsg, s)

/-- `forecast_days` setter on a `MarineWeather` object: the `__setattr__` hook
fires on the `_forecast_days` assignment but acts only on `_lat` / `_long`, so
no probe is issued. -/
def marineSetForecastDays (s : MState) (v : ℤ) : Except (Err × MState) MState :=
  if 1 ≤ v ∧ v ≤ 16 then
    .ok { s with forecast_days := some v,
                 params := { s.params with forecast_days := some v } }
  else
    .error (.assertionError forecastRangeMsg, s)

/-- Modelled from the spec: `common/constants.py` is not among the sources.
`WAVE_TYPES_MAP` maps the wave-type selector (composite / wind / swell) to the
internal API key prefix used in field selectors such as `wave_height`
(spec section 4.4: "a wave-type selector (composite / wind / swell) mapped to
an internal API key prefix"). -/
def waveTypesMap (w : String) : Option String :=
  if w = "composite" then some ""
  else if w = "wind" then some "wind_"
  else if w = "swell" then some "swell_"
  else none

/-- `MarineWeather.wave_type` setter (src/meteorology/marine.py, lines 78-96):
look the selector up in `WAVE_TYPES_MAP`, raise `ValueError` when absent,
otherwise store the selector and the internal prefix. -/
def marineSetWaveType (s : MState) (w : String) : Except (Err × MState) MState :=
  match waveTypesMap w with
  | none => .error (.valueError "wave_type must be composite, wind or swell", s)
  | some t => .ok { s with wave_type := some w, typ := some t }

/-- `MarineWeather.__init__` (src/meteorology/marine.py, lines 41-72):
`BaseForecast.__init__` (coordinate and forecast-day setters — during which the
`__setattr__` hook never probes, because at each `_lat` / `_long` assignment at
least one template entry is still `None`), then one explicit availability
probe, then the `wave_type` setter. -/
def marineInit (api : Params → HttpResponse) (lat long : ℚ) (w : String)
    (fd : ℤ) : Except (Err × MState) MState :=
  match marineSetLat api ⟨none, none, none, none, none, emptyParams, []⟩ lat with
  | .error e => .error e
  | .ok s1 =>
    match marineSetLong api s1 long with
    | .error e => .error e
    | .ok s2 =>
      match marineSetForecastDays s2 fd with
      | .error e => .error e
      | .ok s3 =>
        match marineProbe api s3 with
        | .error e => .error e
        | .ok s4 =>
          marineSetWaveType s4 w

/-- Params template of a `MarineWeather` object right after `BaseForecast.__init__`
(the dict the construction-time probe is sent with). -/
def mkInitParams (lat long : ℚ) (fd : ℤ) : Params :=
  ⟨some lat, some long, some fd, none, none, none⟩

/-- `MarineWeather._max_forecast_days` (src/meteorology/marine.py, line 39). -/
def marineMaxForecastDays : ℤ := 8

/-- `AirQuality._max_forecast_days` (src/meteorology/air.py, line 29). -/
def airQualityMaxForecastDays : ℤ := 7

/-! ### AirQuality (src/meteorology/air.py) -/

/-- `AirQuality.get_current_aqi` (src/meteorology/air.py, lines 65-83), up to
the request it issues: validate `source in ("european", "us")`, raising
`ValueError` otherwise, then request with call dict `current: "european_aqi"`
(the same field key for both sources) merged with the object template. -/
def getCurrentAqiRequest (s : FState) (source : String) : Except Err Params :=
  if source = "european" ∨ source = "us" then
    .ok (buildCurrentRequest s "european_aqi")
  else
    .error (.valueError "source must be european or us")

/-! ### Concrete API stubs and states used by the closed witnesses -/

/-- API that reports marine data available (HTTP 200) for every coordinate. -/
def probeApiOk : Params → HttpResponse :=
  fun _ => ⟨200, "", [], [], [], []⟩

/-- API that reports no marine data (HTTP 400) for every coordinate. -/
def probeApi400 : Params → HttpResponse :=
  fun _ => ⟨400, "no marine data", [], [], [], []⟩

/-- API that reports no data (HTTP 400) exactly when the sent params carry
longitude 9, and 200 otherwise; used to exhibit that a coordinate mutation
probes with the previous template. -/
def probeApiStale : Params → HttpResponse :=
  fun p => if p.longitude = some 9 then ⟨400, "no marine data", [], [], [], []⟩
           else ⟨200, "", [], [], [], []⟩

/-- State of `MarineWeather(0, 0, "composite", 7)` constructed against an API
that answers 200: one probe, sent with the full template. -/
def mInitState1 : MState :=
  ⟨some 0, some 0, some "composite", some "", some 7,
   ⟨some 0, some 0, some 7, none, none, none⟩,
   [⟨some 0, some 0, some 7, none, none, none⟩]⟩

/-- State of `BaseForecast(10, 20, 5)` (used by closed witnesses). -/
def fs1 : FState :=
  ⟨some 10, some 20, some 5, ⟨some 10, some 20, some 5, none, none, none⟩⟩

/-- State after `obj.lat = 9` on `mInitState1` against `probeApiStale`: the
probe (sent with the previous template, longitude 0) answered 200, the
template latitude was then updated. -/
def mStaleLatState : MState :=
  ⟨some 9, some 0, some "composite", some "", some 7,
   ⟨some 9, some 0, some 7, none, none, none⟩,
   [⟨some 0, some 0, some 7, none, none, none⟩,
    ⟨some 0, some 0, some 7, none, none, none⟩]⟩

/-- State after `obj.long = 9` on `mInitState1` against `probeApiStale`: the
probe still carried longitude 0 (the previous template), so it answered 200
even though the API refuses longitude 9. -/
def mStaleLongState : MState :=
  ⟨some 0, some 9, some "composite", some "", some 7,
   ⟨some 0, some 9, some 7, none, none, none⟩,
   [⟨some 0, some 0, some 7, none, none, none⟩,
    ⟨some 0, some 0, some 7, none, none, none⟩]⟩

/-! ## Unfolding lemmas

Closed forms of the constructor and setter pipelines, proved by case analysis;
the claim theorems below are derived from these. -/

/-- Closed form of `baseForecastInit`. -/
theorem baseForecastInit_eq (lat long : ℚ) (fd : ℤ) :
    baseForecastInit lat long fd =
      if -90 ≤ lat ∧ lat ≤ 90 then
        if -90 ≤ long ∧ long ≤ 90 then
          if 1 ≤ fd ∧ fd ≤ 16 then
            .ok ⟨some lat, some long, some fd,
                 ⟨some lat, some long, some fd, none, none, none⟩⟩
          else
            .error (.assertionError forecastRangeMsg,
                    ⟨some lat, some long, none,
                     ⟨some lat, some long, none, none, none, none⟩⟩)
        else
          .error (.assertionError latRangeMsg,
                  ⟨some lat, none, none,
                   ⟨some lat, none, none, none, none, none⟩⟩)
      else
        .error (.assertionError latRangeMsg, initFState) := by
  unfold baseForecastInit baseWeatherInit fSetLat fSetLong fSetForecastDays initFState
  split_ifs <;> rfl

/-- Closed form of `archiveInit`. -/
theorem archiveInit_eq (today : ℤ) (lat long : ℚ) (sd ed : ℤ) :
    archiveInit today lat long sd ed =
      if -90 ≤ lat ∧ lat ≤ 90 then
        if -90 ≤ long ∧ long ≤ 90 then
          if sd ≤ today then
            if ed ≤ today then
              if sd < ed then
                .ok ⟨some lat, some long, some sd, some ed,
                     ⟨some lat, some long, none, none, some sd, some ed⟩⟩
              else
                .error (.assertionError "end_date must be greater than start_date",
                        ⟨some lat, some long, some sd, none,
                         ⟨some lat, some long, none, none, none, none⟩⟩)
            else
              .error (.assertionError "date must not be some date in the future",
                      ⟨some lat, some long, some sd, none,
                       ⟨some lat, some long, none, none, none, none⟩⟩)
          else
            .error (.assertionError "date must not be some date in the future",
                    ⟨some lat, some long, none, none,
                     ⟨some lat, some long, none, none, none, none⟩⟩)
        else
          .error (.assertionError latRangeMsg,
                  ⟨some lat, none, none, none,
                   ⟨some lat, none, none, none, none, none⟩⟩)
      else
        .error (.assertionError latRangeMsg,
                ⟨none, none, none, none, emptyParams⟩) := by
  unfold archiveInit aSetLat aSetLong archSetStartDate archSetEndDate resolveDate
  split_ifs <;> simp_all [emptyParams]
  rw [if_neg (by omega : ¬ sd < ed)]

/-- Inversion for a successful `archiveInit`: the checks all passed and the
resulting state is explicit. -/
theorem archiveInit_ok {today : ℤ} {lat long : ℚ} {sd ed : ℤ} {s : AState}
    (h : archiveInit today lat long sd ed = .ok s) :
    sd ≤ today ∧ ed ≤ today ∧ sd < ed ∧
      s = ⟨some lat, some long, some sd, some ed,
           ⟨some lat, some long, none, none, some sd, some ed⟩⟩ := by
  rw [archiveInit_eq] at h
  split_ifs at h with c1 c2 c3 c4 c5
  exact ⟨c3, c4, c5, (Except.ok.inj h).symm⟩

/-- Closed form of the `start_date` setter. -/
theorem archSetStartDate_eq (today : ℤ) (s : AState) (v : ℤ) :
    archSetStartDate today s v =
      if v ≤ today then .ok { s with start_date := some v }
      else .error (.assertionError "date must not be some date in the future", s) := by
  unfold archSetStartDate resolveDate
  split_ifs <;> rfl

/-- Closed form of the `end_date` setter on a state whose start date is set. -/
theorem archSetEndDate_eq (today : ℤ) (s : AState) (v st : ℤ)
    (hst : s.start_date = some st) :
    archSetEndDate today s v =
      if v ≤ today then
        if st < v then .ok { s with end_date := some v }
        else .error (.assertionError "end_date must be greater than start_date", s)
      else .error (.assertionError "date must not be some date in the future", s) := by
  unfold archSetEndDate resolveDate
  rw [hst]
  split_ifs <;> simp_all

/-- Closed form of `marineInit`: the hook never probes during construction
(at each `_lat` / `_long` assignment at least one template entry is still
`None`), so exactly one probe — the explicit `_check_data_availability`
call — is issued, with the full template. -/
theorem marineInit_eq (api : Params → HttpResponse) (lat long : ℚ) (w : String)
    (fd : ℤ) :
    marineInit api lat long w fd =
      if -90 ≤ lat ∧ lat ≤ 90 then
        if -90 ≤ long ∧ long ≤ 90 then
          if 1 ≤ fd ∧ fd ≤ 16 then
            if (api (mkInitParams lat long fd)).status = 200 then
              match waveTypesMap w with
              | some t =>
                .ok ⟨some lat, some long, some w, some t, some fd,
                     mkInitParams lat long fd, [mkInitParams lat long fd]⟩
              | none =>
                .error (.valueError "wave_type must be composite, wind or swell",
                        ⟨some lat, some long, none, none, some fd,
                         mkInitParams lat long fd, [mkInitParams lat long fd]⟩)
            else
              .error (.requestError (api (mkInitParams lat long fd)).status
                        (api (mkInitParams lat long fd)).reason,
                      ⟨some lat, some long, none, none, some fd,
                       mkInitParams lat long fd, [mkInitParams lat long fd]⟩)
          else
            .error (.assertionError forecastRangeMsg,
                    ⟨some lat, some long, none, none, none,
                     ⟨some lat, some long, none, none, none, none⟩, []⟩)
        else
          .error (.assertionError latRangeMsg,
                  ⟨some lat, none, none, none, none,
                   ⟨some lat, none, none, none, none, none⟩, []⟩)
      else
        .error (.assertionError latRangeMsg,
                ⟨none, none, none, none, none, emptyParams, []⟩) := by
  by_cases c1 : -90 ≤ lat ∧ lat ≤ 90
  · by_cases c2 : -90 ≤ long ∧ long ≤ 90
    · by_cases c3 : 1 ≤ fd ∧ fd ≤ 16
      · by_cases c4 :
          (api (⟨some lat, some long, some fd, none, none, none⟩ : Params)).status = 200
        · cases hw : waveTypesMap w <;>
            simp [marineInit, marineSetLat, marineSetLong, marineSetForecastDays,
                  marineAssignLat, marineAssignLong, marineProbe, marineSetWaveType,
                  mkInitParams, emptyParams, c1, c2, c3, c4, hw]
        · simp [marineInit, marineSetLat, marineSetLong, marineSetForecastDays,
                marineAssignLat, marineAssignLong, marineProbe, marineSetWaveType,
                mkInitParams, emptyParams, c1, c2, c3, c4]
      · simp [marineInit, marineSetLat, marineSetLong, marineSetForecastDays,
              marineAssignLat, marineAssignLong, marineProbe,
              mkInitParams, emptyParams, c1, c2, c3]
    · simp [marineInit, marineSetLat, marineSetLong,
            marineAssignLat, marineAssignLong, marineProbe,
            mkInitParams, emptyParams, c1, c2]
  · simp [marineInit, marineSetLat, marineAssignLat, marineProbe,
          mkInitParams, emptyParams, c1]

/-- Closed form of the inherited `lat` setter on a constructed `MarineWeather`
object (both template coordinate entries set): the probe runs — and raises on
a non-200 status — with the pre-assignment template; the template's latitude
entry is updated only on the post-probe path. -/
theorem marineSetLat_eq (api : Params → HttpResponse) (s : MState) (v : ℚ)
    (h1 : s.params.latitude.isSome = true)
    (h2 : s.params.longitude.isSome = true) :
    marineSetLat api s v =
      if -90 ≤ v ∧ v ≤ 90 then
        if (api s.params).status = 200 then
          .ok ⟨some v, s.long, s.wave_type, s.typ, s.forecast_days,
               { s.params with latitude := some v }, s.probes ++ [s.params]⟩
        else
          .error (.requestError (api s.params).status (api s.params).reason,
                  ⟨some v, s.long, s.wave_type, s.typ, s.forecast_days,
                   s.params, s.probes ++ [s.params]⟩)
      else
        .error (.assertionError latRangeMsg, s) := by
  by_cases c1 : -90 ≤ v ∧ v ≤ 90
  · by_cases c2 : (api s.params).status = 200
    · simp [marineSetLat, marineAssignLat, marineProbe, c1, c2, h1, h2]
    · simp [marineSetLat, marineAssignLat, marineProbe, c1, c2, h1, h2]
  · simp [marineSetLat, c1]

/-- Closed form of the inherited `long` setter on a constructed `MarineWeather`
object; same probe-then-update order as the `lat` setter. -/
theorem marineSetLong_eq (api : Params → HttpResponse) (s : MState) (v : ℚ)
    (h1 : s.params.latitude.isSome = true)
    (h2 : s.params.longitude.isSome = true) :
    marineSetLong api s v =
      if -90 ≤ v ∧ v ≤ 90 then
        if (api s.params).status = 200 then
          .ok ⟨s.lat, some v, s.wave_type, s.typ, s.forecast_days,
               { s.params with longitude := some v }, s.probes ++ [s.params]⟩
        else
          .error (.requestError (api s.params).status (api s.params).reason,
                  ⟨s.lat, some v, s.wave_type, s.typ, s.forecast_days,
                   s.params, s.probes ++ [s.params]⟩)
      else
        .error (.assertionError latRangeMsg, s) := by
  by_cases c1 : -90 ≤ v ∧ v ≤ 90
  · by_cases c2 : (api s.params).status = 200
    · simp [marineSetLong, marineAssignLong, marineProbe, c1, c2, h1, h2]
    · simp [marineSetLong, marineAssignLong, marineProbe, c1, c2, h1, h2]
  · simp [marineSetLong, c1]

/-! ## Claim theorems -/

/-- C1: the claim states that construction succeeds for every latitude in
[-90, 90] and longitude in [-180, 180] and fails with a validation error
outside those ranges. The code contradicts it: `BaseWeather.long`
(src/objects.py, lines 47-52) asserts `-90 <= value <= 90` — a verbatim copy
of the latitude check, whose message even says `lat` — so every
`BaseWeather`-derived construction (Archive, MarineWeather, AirQuality)
rejects longitudes in [-180, -90) and (90, 180], e.g. longitude 100, which
the spec and `Weather.__init__` (src/forecast/weather.py, lines 38-49, shown
here accepting it) require to succeed. -/
theorem C1_longitude_bug :
    excOk (weatherInit 0 100) = true
    ∧ baseWeatherInit 0 100 =
        .error (.assertionError latRangeMsg,
                ⟨some 0, none, none, ⟨some 0, none, none, none, none, none⟩⟩)
    ∧ excOk (baseWeatherInit 0 (-120)) = false
    ∧ excOk (baseWeatherInit 0 80) = true
    ∧ excOk (baseWeatherInit 200 0) = false := by
  decide

/-- C2: the claim states that each domain's forecast-day setter accepts the
domain maximum (16 generic, 8 marine, 7 air quality) and rejects maximum+1,
with default 7. The code contradicts the marine and air-quality parts: the
shared setter `BaseForecast.forecast_days` (src/objects.py, lines 113-122)
validates `value in range(1, 17)` for every domain and never consults the
per-domain `_max_forecast_days` attributes (8 and 7), so a `MarineWeather`
object accepts 9 and an `AirQuality` object accepts 8, against the claim and
the classes' own docstrings. The generic bound (16 succeeds, 17 fails) and
the default of 7 do hold. -/
theorem C2_forecast_days_bug :
    marineMaxForecastDays = 8
    ∧ airQualityMaxForecastDays = 7
    ∧ (baseForecastInitDefault 0 0).map (fun s => s.forecast_days) = .ok (some 7)
    ∧ excOk ((baseForecastInit 0 0 7).bind (fun s => fSetForecastDays s 16)) = true
    ∧ failsValidation
        ((baseForecastInit 0 0 7).bind (fun s => fSetForecastDays s 17)) = true
    ∧ excOk ((marineInit probeApiOk 0 0 "composite" 7).bind
        (fun s => marineSetForecastDays s 9)) = true
    ∧ excOk ((baseForecastInit 0 0 7).bind (fun s => fSetForecastDays s 8)) = true := by
  decide

/-- C3 counterexample: the claim states that every setter of either date bound
re-establishes the date-range invariant or fails. It is false: from the
Archive state constructed (with today = 100) from start 0 and end 1, the
`start_date` setter accepts 50 — it only checks the new date against today
(src/forecast/weather_archive.py, lines 81-83) — leaving start 50 after
end 1, so the invariant "end strictly after start" is broken by a successful
mutation. -/
theorem C3_start_date_counterexample :
    (archiveInit 100 0 0 0 1).bind (fun s => archSetStartDate 100 s 50) =
      .ok ⟨some 0, some 0, some 50, some 1,
           ⟨some 0, some 0, none, none, some 0, some 1⟩⟩
    ∧ ¬ datesInv 100 ⟨some 0, some 0, some 50, some 1,
                      ⟨some 0, some 0, none, none, some 0, some 1⟩⟩ := by
  refine ⟨by decide, fun h => ?_⟩
  have := (h 50 1 rfl rfl).2.2
  omega

/-- C3 amended: construction establishes the date-range invariant, and a
successful `end_date` mutation from a constructed state re-establishes it;
but a successful `start_date` mutation only guarantees that the new start
date is at most today and leaves `end_date` unchanged — it does not re-check
`end > start`, so it can break the invariant (see the counterexample). -/
theorem C3_amended_invariant (today : ℤ) (lat long : ℚ) (sd ed v w : ℤ)
    (s1 s2 s3 : AState)
    (h1 : archiveInit today lat long sd ed = .ok s1)
    (h2 : archSetEndDate today s1 v = .ok s2)
    (h3 : archSetStartDate today s1 w = .ok s3) :
    datesInv today s1
    ∧ datesInv today s2
    ∧ (s3.start_date = some w ∧ w ≤ today ∧ s3.end_date = s1.end_date) := by
  obtain ⟨hsd, hed, hlt, rfl⟩ := archiveInit_ok h1
  rw [archSetEndDate_eq today _ v sd rfl] at h2
  rw [archSetStartDate_eq] at h3
  split_ifs at h2 with d1 d2
  split_ifs at h3 with d3
  obtain rfl := Except.ok.inj h2
  obtain rfl := Except.ok.inj h3
  refine ⟨?_, ?_, ?_, d3, rfl⟩
  · intro st ed' hst hed'
    simp only [Option.some.injEq] at hst hed'
    omega
  · intro st ed' hst hed'
    simp only [Option.some.injEq] at hst hed'
    omega
  · rfl

/-- C3 amended, witness at concrete inputs: today 100, Archive(0, 0, 0, 2),
end set to 3, start set to 1. -/
theorem C3_amended_invariant_witness :
    datesInv 100 ⟨some 0, some 0, some 0, some 2,
                  ⟨some 0, some 0, none, none, some 0, some 2⟩⟩
    ∧ datesInv 100 ⟨some 0, some 0, some 0, some 3,
                    ⟨some 0, some 0, none, none, some 0, some 2⟩⟩
    ∧ ((⟨some 0, some 0, some 1, some 2,
         ⟨some 0, some 0, none, none, some 0, some 2⟩⟩ : AState).start_date = some 1
       ∧ (1 : ℤ) ≤ 100
       ∧ (⟨some 0, some 0, some 1, some 2,
           ⟨some 0, some 0, none, none, some 0, some 2⟩⟩ : AState).end_date =
         (⟨some 0, some 0, some 0, some 2,
           ⟨some 0, some 0, none, none, some 0, some 2⟩⟩ : AState).end_date) :=
  C3_amended_invariant 100 0 0 0 2 3 1 _ _ _ (by decide) (by decide) (by decide)

/-- C4: every fetch operation — scalar, series, summary (modelled from the
spec, `common/tools.py` being absent from the sources) and the marine
availability probe (src/meteorology/marine.py, lines 118-130) — turns a
non-200 response into a request error carrying the response's status code and
the server-provided reason text, and the `RequestError` message built by
src/atmolib/errors.py embeds both, as the 400 / "bad params" instance shows. -/
theorem C4_request_error (resp : HttpResponse) (field freq : String)
    (fields : List String) (api : Params → HttpResponse) (s : MState)
    (h : resp.status ≠ 200) (h2 : (api s.params).status ≠ 200) :
    getCurrentData resp field = .error (.requestError resp.status resp.reason)
    ∧ getPeriodicalData resp freq field =
        .error (.requestError resp.status resp.reason)
    ∧ getCurrentSummary resp fields =
        .error (.requestError resp.status resp.reason)
    ∧ marineProbe api s =
        .error (.requestError (api s.params).status (api s.params).reason,
                { s with probes := s.probes ++ [s.params] })
    ∧ requestErrorMessage 400 "bad params" =
        "Server responded with status code 400. bad params" := by
  refine ⟨?_, ?_, ?_, ?_, by decide⟩ <;>
    simp [getCurrentData, getPeriodicalData, getCurrentSummary, marineProbe, h, h2]

/-- C4 witness: a mocked 400 response whose body carries reason "bad params"
makes each fetch primitive fail with a request error carrying 400 and that
reason, and the probe does the same against an API answering 400. -/
theorem C4_request_error_witness :
    getCurrentData ⟨400, "bad params", [], [], [], []⟩ "temperature_2m" =
        .error (.requestError 400 "bad params")
    ∧ getPeriodicalData ⟨400, "bad params", [], [], [], []⟩ "hourly" "cloud_cover" =
        .error (.requestError 400 "bad params")
    ∧ getCurrentSummary ⟨400, "bad params", [], [], [], []⟩ ["wave_height"] =
        .error (.requestError 400 "bad params")
    ∧ marineProbe probeApi400 mInitState1 =
        .error (.requestError 400 "no marine data",
                { mInitState1 with
                  probes := mInitState1.probes ++ [mInitState1.params] })
    ∧ requestErrorMessage 400 "bad params" =
        "Server responded with status code 400. bad params" :=
  C4_request_error ⟨400, "bad params", [], [], [], []⟩ "temperature_2m" "hourly"
    ["wave_height"] probeApi400 mInitState1 (by decide) (by decide)

/-- C5: on an invalid argument each property setter of src/objects.py
(latitude, longitude, forecast-day count) raises the validating assert before
performing any write, so the error carries the object's state exactly as it
was — every slot and every request-template entry unchanged, no partial
update. -/
theorem C5_setter_atomicity (s : FState) (v w : ℚ) (n : ℤ)
    (hv : ¬(-90 ≤ v ∧ v ≤ 90)) (hw : ¬(-90 ≤ w ∧ w ≤ 90))
    (hn : ¬(1 ≤ n ∧ n ≤ 16)) :
    fSetLat s v = .error (.assertionError latRangeMsg, s)
    ∧ fSetLong s w = .error (.assertionError latRangeMsg, s)
    ∧ fSetForecastDays s n = .error (.assertionError forecastRangeMsg, s) := by
  refine ⟨?_, ?_, ?_⟩ <;> simp [fSetLat, fSetLong, fSetForecastDays, hv, hw, hn]

/-- C5 witness: latitude 91, longitude 91 and forecast window 17 are each
rejected with the state (here the fresh template state) left untouched. -/
theorem C5_setter_atomicity_witness :
    fSetLat initFState 91 = .error (.assertionError latRangeMsg, initFState)
    ∧ fSetLong initFState 91 = .error (.assertionError latRangeMsg, initFState)
    ∧ fSetForecastDays initFState 17 =
        .error (.assertionError forecastRangeMsg, initFState) :=
  C5_setter_atomicity initFState 91 91 17 (by decide) (by decide) (by decide)

/-- C6: for an Archive at valid coordinates, construction with end date equal
to the start date fails with a validation error (whatever the dates), with
end = start + 1 it succeeds whenever start + 1 is not in the future, and with
a start date in the future it fails with a validation error. -/
theorem C6_archive_date_rules (today sd ed : ℤ) :
    failsValidation (archiveInit today 0 0 sd sd) = true
    ∧ (sd + 1 ≤ today → excOk (archiveInit today 0 0 sd (sd + 1)) = true)
    ∧ (today < sd → failsValidation (archiveInit today 0 0 sd ed) = true) := by
  have hq : ((-90 : ℚ) ≤ 0 ∧ (0 : ℚ) ≤ 90) := by norm_num
  refine ⟨?_, fun h => ?_, fun h => ?_⟩
  · rw [archiveInit_eq]
    by_cases hsd : sd ≤ today
    · simp [hq, hsd, failsValidation, isValidationError]
    · simp [hq, hsd, failsValidation, isValidationError]
  · rw [archiveInit_eq]
    have h1 : sd ≤ today := by omega
    have h3 : sd < sd + 1 := by omega
    simp [hq, h1, h, h3, excOk]
  · rw [archiveInit_eq]
    have h1 : ¬ (sd ≤ today) := by omega
    simp [hq, h1, failsValidation, isValidationError]

/-- C6 witness: with today = 100, Archive(0, 0, 5, 5) fails, Archive(0, 0, 5, 6)
succeeds, and Archive(0, 0, 200, 42) — future start date — fails. -/
theorem C6_archive_date_rules_witness :
    failsValidation (archiveInit 100 0 0 5 5) = true
    ∧ excOk (archiveInit 100 0 0 5 6) = true
    ∧ failsValidation (archiveInit 100 0 0 200 42) = true :=
  ⟨(C6_archive_date_rules 100 5 42).1,
   (C6_archive_date_rules 100 5 42).2.1 (by decide),
   (C6_archive_date_rules 100 200 42).2.2 (by decide)⟩

/-- C7: the Marine domain issues exactly one availability probe during
construction (the probe log of a constructed object is the one-element list
holding the full template), failing with a request error when the API reports
no data at the coordinates; and every later mutation of the latitude or
longitude of a constructed object re-triggers the probe — appending one entry
to the probe log on success, and failing with the request error built from
the API response when the probe is refused. -/
theorem C7_marine_availability_probe (api : Params → HttpResponse) :
    (∀ (lat long : ℚ) (w : String) (fd : ℤ) (s : MState),
      marineInit api lat long w fd = .ok s →
        s.probes = [mkInitParams lat long fd])
    ∧ (∀ (lat long : ℚ) (w : String) (fd : ℤ),
        (-90 ≤ lat ∧ lat ≤ 90) → (-90 ≤ long ∧ long ≤ 90) →
        (1 ≤ fd ∧ fd ≤ 16) →
        (api (mkInitParams lat long fd)).status ≠ 200 →
        marineInit api lat long w fd =
          .error (.requestError (api (mkInitParams lat long fd)).status
                    (api (mkInitParams lat long fd)).reason,
                  ⟨some lat, some long, none, none, some fd,
                   mkInitParams lat long fd, [mkInitParams lat long fd]⟩))
    ∧ (∀ (s : MState) (v : ℚ) (t : MState),
        s.params.latitude.isSome = true → s.params.longitude.isSome = true →
        marineSetLat api s v = .ok t → t.probes = s.probes ++ [s.params])
    ∧ (∀ (s : MState) (v : ℚ) (t : MState),
        s.params.latitude.isSome = true → s.params.longitude.isSome = true →
        marineSetLong api s v = .ok t → t.probes = s.probes ++ [s.params])
    ∧ (∀ (s : MState) (v : ℚ),
        (-90 ≤ v ∧ v ≤ 90) →
        s.params.latitude.isSome = true → s.params.longitude.isSome = true →
        (api s.params).status ≠ 200 →
        marineSetLat api s v =
          .error (.requestError (api s.params).status (api s.params).reason,
                  ⟨some v, s.long, s.wave_type, s.typ, s.forecast_days,
                   s.params, s.probes ++ [s.params]⟩))
    ∧ (∀ (s : MState) (v : ℚ),
        (-90 ≤ v ∧ v ≤ 90) →
        s.params.latitude.isSome = true → s.params.longitude.isSome = true →
        (api s.params).status ≠ 200 →
        marineSetLong api s v =
          .error (.requestError (api s.params).status (api s.params).reason,
                  ⟨s.lat, some v, s.wave_type, s.typ, s.forecast_days,
                   s.params, s.probes ++ [s.params]⟩)) := by
  refine ⟨?_, ?_, ?_, ?_, ?_, ?_⟩
  · intro lat long w fd s h
    rw [marineInit_eq] at h
    split_ifs at h with c1 c2 c3 c4
    cases hw : waveTypesMap w <;> rw [hw] at h
    · exact Except.noConfusion h
    · obtain rfl := Except.ok.inj h
      rfl
  · intro lat long w fd h1 h2 h3 h4
    rw [marineInit_eq]
    simp [h1, h2, h3, h4]
  · intro s v t h1 h2 h
    rw [marineSetLat_eq api s v h1 h2] at h
    split_ifs at h with c1 c2
    obtain rfl := Except.ok.inj h
    rfl
  · intro s v t h1 h2 h
    rw [marineSetLong_eq api s v h1 h2] at h
    split_ifs at h with c1 c2
    obtain rfl := Except.ok.inj h
    rfl
  · intro s v h0 h1 h2 h4
    rw [marineSetLat_eq api s v h1 h2]
    simp [h0, h4]
  · intro s v h0 h1 h2 h4
    rw [marineSetLong_eq api s v h1 h2]
    simp [h0, h4]

/-- C7 witness: against an always-200 API, `MarineWeather(0, 0, "composite", 7)`
has exactly the one construction-time probe in its log; against an always-400
API (reason "no marine data"), construction fails with the request error, and
so does a later `lat = 5` mutation — after having probed once more. -/
theorem C7_marine_availability_probe_witness :
    mInitState1.probes = [mkInitParams 0 0 7]
    ∧ marineInit probeApi400 0 0 "composite" 7 =
        .error (.requestError 400 "no marine data",
                ⟨some 0, some 0, none, none, some 7, mkInitParams 0 0 7,
                 [mkInitParams 0 0 7]⟩)
    ∧ marineSetLat probeApi400 mInitState1 5 =
        .error (.requestError 400 "no marine data",
                ⟨some 5, some 0, some "composite", some "", some 7,
                 mInitState1.params,
                 mInitState1.probes ++ [mInitState1.params]⟩) :=
  ⟨(C7_marine_availability_probe probeApiOk).1 0 0 "composite" 7 mInitState1
     (by decide),
   (C7_marine_availability_probe probeApi400).2.1 0 0 "composite" 7 (by decide)
     (by decide) (by decide) (by decide),
   (C7_marine_availability_probe probeApi400).2.2.2.2.1 mInitState1 5 (by decide)
     (by decide) (by decide) (by decide)⟩

/-- C8: a successfully constructed forecast object can be reconstructed from
the coordinate and forecast-window values its accessors report; the rebuilt
object is in the same state, so every subsequent request (any call dict merged
with the template) produces a parameter mapping identical to the original
object's. -/
theorem C8_roundtrip (lat long : ℚ) (fd : ℤ) (s : FState)
    (h : baseForecastInit lat long fd = .ok s) :
    ∃ s2 : FState,
      baseForecastInit (s.lat.getD 0) (s.long.getD 0) (s.forecast_days.getD 0) =
        .ok s2
      ∧ ∀ call : Params, mergedRequest s2 call = mergedRequest s call := by
  rw [baseForecastInit_eq] at h
  split_ifs at h with c1 c2 c3
  obtain rfl := Except.ok.inj h
  refine ⟨_, ?_, fun _ => rfl⟩
  rw [baseForecastInit_eq]
  simp [c1, c2, c3]

/-- C8 witness: the state of `BaseForecast(10, 20, 5)` round-trips. -/
theorem C8_roundtrip_witness :
    ∃ s2 : FState,
      baseForecastInit (fs1.lat.getD 0) (fs1.long.getD 0)
          (fs1.forecast_days.getD 0) = .ok s2
      ∧ ∀ call : Params, mergedRequest s2 call = mergedRequest fs1 call :=
  C8_roundtrip 10 20 5 fs1 (by decide)

/-- C9: `AirQuality.get_current_aqi` accepts exactly the sources "european"
and "us" and sends the field selector `european_aqi` for both — so source
"us" also yields the European index — while any other source value raises a
`ValueError` before any request is built. -/
theorem C9_aqi_always_european (s : FState) (src : String)
    (h1 : src ≠ "european") (h2 : src ≠ "us") :
    getCurrentAqiRequest s "european" = .ok (buildCurrentRequest s "european_aqi")
    ∧ getCurrentAqiRequest s "us" = .ok (buildCurrentRequest s "european_aqi")
    ∧ getCurrentAqiRequest s src =
        .error (.valueError "source must be european or us") := by
  refine ⟨?_, ?_, ?_⟩
  · unfold getCurrentAqiRequest
    rw [if_pos (Or.inl rfl)]
  · unfold getCurrentAqiRequest
    rw [if_pos (Or.inr rfl)]
  · unfold getCurrentAqiRequest
    rw [if_neg (fun hor => hor.elim h1 h2)]

/-- C9 witness: on the `BaseForecast(10, 20, 5)` state, both accepted sources
select `european_aqi` and the source "usa" is rejected. -/
theorem C9_aqi_always_european_witness :
    getCurrentAqiRequest fs1 "european" = .ok (buildCurrentRequest fs1 "european_aqi")
    ∧ getCurrentAqiRequest fs1 "us" = .ok (buildCurrentRequest fs1 "european_aqi")
    ∧ getCurrentAqiRequest fs1 "usa" =
        .error (.valueError "source must be european or us") :=
  C9_aqi_always_european fs1 "usa" (by decide) (by decide)

/-- C10: when the latitude (or longitude) of a constructed `MarineWeather`
object is assigned, the probe fired by the `__setattr__` hook is sent with the
object's previous template — the probe log gains exactly the pre-call params,
never one carrying the new value — and the template's coordinate entry is
updated only after the probe returns. -/
theorem C10_probe_uses_previous_template (api : Params → HttpResponse)
    (s t u : MState) (v : ℚ)
    (hlat : s.params.latitude.isSome = true)
    (hlong : s.params.longitude.isSome = true)
    (h1 : marineSetLat api s v = .ok t)
    (h2 : marineSetLong api s v = .ok u) :
    (t.probes = s.probes ++ [s.params]
     ∧ t.params = { s.params with latitude := some v }
     ∧ t.lat = some v)
    ∧ (u.probes = s.probes ++ [s.params]
     ∧ u.params = { s.params with longitude := some v }
     ∧ u.long = some v) := by
  rw [marineSetLat_eq api s v hlat hlong] at h1
  rw [marineSetLong_eq api s v hlat hlong] at h2
  split_ifs at h1 with c1 c2
  rw [if_pos c1, if_pos c2] at h2
  obtain rfl := Except.ok.inj h1
  obtain rfl := Except.ok.inj h2
  exact ⟨⟨rfl, rfl, rfl⟩, ⟨rfl, rfl, rfl⟩⟩

/-- C10 witness: against `probeApiStale` — which refuses exactly longitude 9 —
both `lat = 9` and `long = 9` on `mInitState1` succeed, because each probe
was sent with the previous template (longitude 0); the new value reaches the
template only after the probe. -/
theorem C10_probe_uses_previous_template_witness :
    (mStaleLatState.probes = mInitState1.probes ++ [mInitState1.params]
     ∧ mStaleLatState.params = { mInitState1.params with latitude := some 9 }
     ∧ mStaleLatState.lat = some 9)
    ∧ (mStaleLongState.probes = mInitState1.probes ++ [mInitState1.params]
     ∧ mStaleLongState.params = { mInitState1.params with longitude := some 9 }
     ∧ mStaleLongState.long = some 9) :=
  C10_probe_uses_previous_template probeApiStale mInitState1 mStaleLatState
    mStaleLongState 9 (by decide) (by decide) (by decide) (by decide)

end PyWeather
